import Mathlib

/-!
# Verification of `wifi-config`

A shallow embedding of the `wifi-config` Rust crate (files `src/lib.rs` and
`src/main.rs`).  The program talks to a remote network-management service over
an IPC bus; here that environment is modelled as an oracle structure `Service`
supplying the responses of every remote call the program can make, and the
procedure `send_wifi_to_network_manager` is embedded as a pure function from
the oracle and the two string inputs to a `RunResult` recording every request
issued, every console line printed, and whether the process aborted (a Rust
`unwrap` panic) or returned normally.
-/

set_option autoImplicit false

namespace WifiConfig

/-- The UTF-8 bytes of a string, as natural numbers (each `< 256`): models the
Rust expression `ssid.as_bytes().to_vec()` in `lib.rs`.  This is exactly the
byte content of `String.toUTF8` (whose definition is
`⟨⟨a.data.flatMap utf8EncodeChar⟩⟩`), written without the `ByteArray` wrapper
so that it evaluates on concrete strings. -/
def strBytes (s : String) : List Nat :=
  (s.data.flatMap String.utf8EncodeChar).map (fun b => b.toNat)

/-- A value stored in a settings-dictionary entry.  The Rust code wraps each
value in `Variant<Box<dyn RefArg>>`; the only payloads it ever constructs are a
byte vector (`Vec<u8>`, used for the SSID) and a string (used for `mode`,
`key-mgmt` and `psk`), so the embedding uses a closed variant with exactly
those two cases. -/
inductive DBusValue where
  | bytes (bs : List Nat)
  | str (s : String)
deriving DecidableEq, Repr

/-- An inner settings group: the content of the Rust
`HashMap<&str, Variant<...>>`, as an association list of its key-value pairs
(all keys inserted by the code are distinct, so the content determines the
map). -/
abbrev SettingsGroup := List (String × DBusValue)

/-- The outer two-level settings dictionary
`HashMap<&str, HashMap<&str, Variant<...>>>`. -/
abbrev ConnectionSettings := List (String × SettingsGroup)

/-- The `802-11-wireless` group built in `lib.rs`:
`ssid ↦ bytes(ssid)`, `mode ↦ "infrastructure"`. -/
def wifi_settings (ssid : String) : SettingsGroup :=
  [("ssid", DBusValue.bytes (strBytes ssid)),
   ("mode", DBusValue.str "infrastructure")]

/-- The `802-11-wireless-security` group built in `lib.rs`:
`key-mgmt ↦ "wpa-psk"`, `psk ↦ password`. -/
def wifi_security (password : String) : SettingsGroup :=
  [("key-mgmt", DBusValue.str "wpa-psk"),
   ("psk", DBusValue.str password)]

/-- The full `connection_settings` dictionary built in `lib.rs`: exactly the
two groups above under their group names. -/
def connection_settings (ssid password : String) : ConnectionSettings :=
  [("802-11-wireless", wifi_settings ssid),
   ("802-11-wireless-security", wifi_security password)]

/-- The argument triple of the `AddAndActivateConnection` remote call:
`(connection_settings, device_path, connection_path)` in `lib.rs`. -/
structure ActivationRequest where
  settings : ConnectionSettings
  devicePath : String
  connectionPath : String
deriving DecidableEq, Repr

/-- The remote environment of one run: the responses of the system bus and of
the network-management service.  `sessionOpens` is whether
`Connection::new_system()` succeeds; `getDevices` is the reply to the
`GetDevices` call (a list of device object paths, or an error);
`deviceType` is the reply to the per-device `DeviceType` property read
(an unsigned 32-bit integer in the wire format, here a `Nat`);
`activate` is the reply to `AddAndActivateConnection`, which may depend on the
request.  The embedding leaves these abstract so theorems quantify over every
possible environment. -/
structure Service where
  sessionOpens : Bool
  getDevices : Except String (List String)
  deviceType : String → Except String Nat
  activate : ActivationRequest → Except String Unit

/-- The observable trace of one run: the device paths whose `DeviceType`
property was read (in order), the `AddAndActivateConnection` requests issued,
and the lines printed on stdout (`println!`) and stderr (`eprintln!`). -/
structure RunLog where
  propertyReads : List String
  activationCalls : List ActivationRequest
  stdoutLines : List String
  stderrLines : List String
deriving DecidableEq, Repr

/-- How one call of `send_wifi_to_network_manager` ends: `aborted` is a Rust
panic from one of the `.unwrap()` calls (the process dies), `returned` is a
normal return, carrying the function's return value — which in the Rust
source is the unit type `()`. -/
inductive RunResult where
  | aborted (log : RunLog)
  | returned (log : RunLog) (ret : Unit)
deriving DecidableEq, Repr

/-- The trace of a run, aborted or not. -/
def RunResult.log : RunResult → RunLog
  | .aborted l => l
  | .returned l _ => l

/-- Whether the run panicked. -/
def RunResult.isAborted : RunResult → Bool
  | .aborted _ => true
  | .returned _ _ => false

/-- The value a run hands back to its caller: `none` when the process aborted,
otherwise the Rust function's return value. -/
def RunResult.retValue : RunResult → Option Unit
  | .aborted _ => none
  | .returned _ u => some u

/-- The `for device in devices` loop of `send_wifi_to_network_manager`: reads
the `DeviceType` property of each device in order, stopping at the first whose
type is `2`.  Returns the list of devices whose property was read together
with the loop outcome: `Except.error e` when a property read failed (the
`.unwrap()` panics), otherwise the first Wi-Fi device if one was found. -/
def scanDevices (svc : Service) : List String → List String × Except String (Option String)
  | [] => ([], Except.ok none)
  | d :: rest =>
    match svc.deviceType d with
    | Except.error e => ([d], Except.error e)
    | Except.ok t =>
      if t = 2 then
        ([d], Except.ok (some d))
      else
        let p := scanDevices svc rest
        (d :: p.1, p.2)

/-- Embedding of `send_wifi_to_network_manager` from `src/lib.rs`, faithful to
its control flow: open the system bus (`unwrap`: abort on failure), call
`GetDevices` (`unwrap`: abort on failure), scan for the first device of type 2
(each property read `unwrap`ped: abort on failure), print
`"Wi-Fi device not found."` to stderr and return if none was found, otherwise
build `connection_settings` and issue `AddAndActivateConnection` with the
triple `(connection_settings, device_path, "/")`, printing a success line on
stdout or a failure line carrying the service's error on stderr. -/
def send_wifi_to_network_manager (svc : Service) (ssid password : String) : RunResult :=
  if svc.sessionOpens = false then
    RunResult.aborted ⟨[], [], [], []⟩
  else
    match svc.getDevices with
    | Except.error _ => RunResult.aborted ⟨[], [], [], []⟩
    | Except.ok devices =>
      let scan := scanDevices svc devices
      match scan.2 with
      | Except.error _ => RunResult.aborted ⟨scan.1, [], [], []⟩
      | Except.ok none =>
        RunResult.returned ⟨scan.1, [], [], ["Wi-Fi device not found."]⟩ ()
      | Except.ok (some device_path) =>
        let req : ActivationRequest :=
          ⟨connection_settings ssid password, device_path, "/"⟩
        match svc.activate req with
        | Except.ok _ =>
          RunResult.returned
            ⟨scan.1, [req], ["Wi-Fi configuration successfully sent."], []⟩ ()
        | Except.error e =>
          RunResult.returned
            ⟨scan.1, [req], [], ["Failed to configure Wi-Fi: " ++ e]⟩ ()

/-- How the process ends: `exited code out err` is a normal exit with that
status and console output, `abortedRun` is a panic propagating out of
`send_wifi_to_network_manager` (the process terminates abnormally; a Rust
panic exits with status 101). -/
inductive MainResult where
  | exited (code : Nat) (stdoutLines stderrLines : List String)
  | abortedRun (log : RunLog)
deriving DecidableEq, Repr

/-- The process exit status: the code of a normal exit, or 101 for a panic
abort. -/
def MainResult.exitCode : MainResult → Nat
  | .exited c _ _ => c
  | .abortedRun _ => 101

/-- Embedding of `main` from `src/main.rs`: `args` is the full argv including
the program name.  If `args.len() != 3` it prints the usage line to stderr and
exits with code 1; otherwise it calls `send_wifi_to_network_manager` with
`args[1]` and `args[2]` and, on reaching the end, returns `Ok(())`, i.e. exits
with code 0. -/
def main (svc : Service) (args : List String) : MainResult :=
  match args with
  | [_, ssid, password] =>
    match send_wifi_to_network_manager svc ssid password with
    | RunResult.aborted log => MainResult.abortedRun log
    | RunResult.returned log _ =>
      MainResult.exited 0 log.stdoutLines log.stderrLines
  | _ => MainResult.exited 1 [] ["Usage: wifi-config <SSID> <PASSWORD>"]

/-! ## Concrete fake services, used to evaluate the theorems on closed runs -/

/-- A fake service with devices `devA` (type 1), `devB` and `devC` (type 2);
activation succeeds. -/
def svcThreeDevices : Service where
  sessionOpens := true
  getDevices := Except.ok ["devA", "devB", "devC"]
  deviceType := fun d =>
    if d = "devB" then Except.ok 2
    else if d = "devC" then Except.ok 2
    else Except.ok 1
  activate := fun _ => Except.ok ()

/-- A second copy of `svcThreeDevices`, defined separately: extensionally
equal responses, used to compare two runs. -/
def svcThreeDevicesTwin : Service where
  sessionOpens := true
  getDevices := Except.ok ["devA", "devB", "devC"]
  deviceType := fun d =>
    if d = "devB" then Except.ok 2
    else if d = "devC" then Except.ok 2
    else Except.ok 1
  activate := fun _ => Except.ok ()

/-- A fake service with devices `devA` (type 1) and `devB` (type 5): no Wi-Fi
device. -/
def svcNoWifi : Service where
  sessionOpens := true
  getDevices := Except.ok ["devA", "devB"]
  deviceType := fun d => if d = "devB" then Except.ok 5 else Except.ok 1
  activate := fun _ => Except.ok ()

/-- A fake service whose `GetDevices` returns the empty list. -/
def svcEmpty : Service where
  sessionOpens := true
  getDevices := Except.ok []
  deviceType := fun _ => Except.error "no such device"
  activate := fun _ => Except.ok ()

/-- A fake service with one Wi-Fi device whose activation call is rejected. -/
def svcActivateFail : Service where
  sessionOpens := true
  getDevices := Except.ok ["wlan0"]
  deviceType := fun _ => Except.ok 2
  activate := fun _ => Except.error "supplicant failure"

/-- A fake environment where the system bus session cannot be opened. -/
def svcNoSession : Service where
  sessionOpens := false
  getDevices := Except.error "bus unreachable"
  deviceType := fun _ => Except.error "bus unreachable"
  activate := fun _ => Except.error "bus unreachable"

/-- A fake service whose `GetDevices` call fails. -/
def svcEnumFail : Service where
  sessionOpens := true
  getDevices := Except.error "permission denied"
  deviceType := fun _ => Except.error "permission denied"
  activate := fun _ => Except.error "permission denied"

/-- A fake service where the `DeviceType` read of the second device fails. -/
def svcReadFail : Service where
  sessionOpens := true
  getDevices := Except.ok ["devA", "devB"]
  deviceType := fun d =>
    if d = "devA" then Except.ok 1 else Except.error "property read timeout"
  activate := fun _ => Except.ok ()

/-! ## Behaviour of the device scan -/

/-- Two services answering every property read identically are scanned
identically. -/
theorem scanDevices_congr (svc1 svc2 : Service)
    (hd : ∀ d, svc1.deviceType d = svc2.deviceType d) :
    ∀ l, scanDevices svc1 l = scanDevices svc2 l := by
  intro l
  induction l with
  | nil => rfl
  | cons d rest ih => simp only [scanDevices, hd, ih]

/-- If every device in the list has a readable `DeviceType` different from 2,
the scan reads them all and finds no Wi-Fi device. -/
theorem scanDevices_no_match (svc : Service) (l : List String)
    (h : ∀ d ∈ l, ∃ t, svc.deviceType d = Except.ok t ∧ t ≠ 2) :
    scanDevices svc l = (l, Except.ok none) := by
  induction l with
  | nil => rfl
  | cons d rest ih =>
    obtain ⟨t, ht, ht2⟩ := h d (List.mem_cons_self d rest)
    have hrest := ih (fun x hx => h x (List.mem_cons_of_mem d hx))
    simp [scanDevices, ht, ht2, hrest]

/-- If the entry at index `N` is the first whose `DeviceType` reads as 2 (all
earlier reads succeed with a type other than 2), the scan reads exactly the
first `N + 1` entries and returns that entry. -/
theorem scanDevices_first_match (svc : Service) (l : List String) :
    ∀ (N : Nat) (hN : N < l.length),
      (∀ i (hi : i < N), ∃ t,
        svc.deviceType (l.get ⟨i, Nat.lt_trans hi hN⟩) = Except.ok t ∧ t ≠ 2) →
      svc.deviceType (l.get ⟨N, hN⟩) = Except.ok 2 →
      scanDevices svc l = (l.take (N + 1), Except.ok (some (l.get ⟨N, hN⟩))) := by
  induction l with
  | nil => intro N hN; simp at hN
  | cons d rest ih =>
    intro N hN hbefore hmatch
    cases N with
    | zero =>
      simp only [List.get] at hmatch
      simp [scanDevices, hmatch]
    | succ n =>
      obtain ⟨t, ht, ht2⟩ := hbefore 0 (Nat.succ_pos n)
      simp only [List.get] at ht hmatch
      have ihr := ih n (Nat.lt_of_succ_lt_succ hN)
        (fun i hi => hbefore (i + 1) (Nat.succ_lt_succ hi)) hmatch
      simp [scanDevices, ht, ht2, ihr, List.get]

/-- If the entry at index `k` is the first whose `DeviceType` read fails (all
earlier reads succeed with a type other than 2), the scan stops there with
that error, having read exactly the first `k + 1` entries. -/
theorem scanDevices_read_error (svc : Service) (l : List String) :
    ∀ (k : Nat) (hk : k < l.length) (e : String),
      (∀ i (hi : i < k), ∃ t,
        svc.deviceType (l.get ⟨i, Nat.lt_trans hi hk⟩) = Except.ok t ∧ t ≠ 2) →
      svc.deviceType (l.get ⟨k, hk⟩) = Except.error e →
      scanDevices svc l = (l.take (k + 1), Except.error e) := by
  induction l with
  | nil => intro k hk; simp at hk
  | cons d rest ih =>
    intro k hk e hbefore herr
    cases k with
    | zero =>
      simp only [List.get] at herr
      simp [scanDevices, herr]
    | succ n =>
      obtain ⟨t, ht, ht2⟩ := hbefore 0 (Nat.succ_pos n)
      simp only [List.get] at ht herr
      have ihr := ih n (Nat.lt_of_succ_lt_succ hk) e
        (fun i hi => hbefore (i + 1) (Nat.succ_lt_succ hi)) herr
      simp [scanDevices, ht, ht2, ihr, List.get]

/-! ## Behaviour of one run, by case -/

/-- A failed session open aborts the run before any request is issued. -/
theorem run_session_fail (svc : Service) (ssid password : String)
    (hsess : svc.sessionOpens = false) :
    send_wifi_to_network_manager svc ssid password =
      RunResult.aborted ⟨[], [], [], []⟩ := by
  simp [send_wifi_to_network_manager, hsess]

/-- A failed `GetDevices` call aborts the run before any property read. -/
theorem run_getDevices_fail (svc : Service) (ssid password e : String)
    (hsess : svc.sessionOpens = true) (hdev : svc.getDevices = Except.error e) :
    send_wifi_to_network_manager svc ssid password =
      RunResult.aborted ⟨[], [], [], []⟩ := by
  simp [send_wifi_to_network_manager, hsess, hdev]

/-- A failed property read during the scan aborts the run with no activation
call issued. -/
theorem run_scan_error (svc : Service) (ssid password e : String)
    (devices reads : List String)
    (hsess : svc.sessionOpens = true) (hdev : svc.getDevices = Except.ok devices)
    (hscan : scanDevices svc devices = (reads, Except.error e)) :
    send_wifi_to_network_manager svc ssid password =
      RunResult.aborted ⟨reads, [], [], []⟩ := by
  simp [send_wifi_to_network_manager, hsess, hdev, hscan]

/-- A scan that finds no Wi-Fi device makes the run print the not-found line
to stderr and return, with no activation call. -/
theorem run_not_found (svc : Service) (ssid password : String)
    (devices reads : List String)
    (hsess : svc.sessionOpens = true) (hdev : svc.getDevices = Except.ok devices)
    (hscan : scanDevices svc devices = (reads, Except.ok none)) :
    send_wifi_to_network_manager svc ssid password =
      RunResult.returned ⟨reads, [], [], ["Wi-Fi device not found."]⟩ () := by
  simp [send_wifi_to_network_manager, hsess, hdev, hscan]

/-- When the scan finds a device and the activation call succeeds, the run
issues exactly that one activation request and prints the success line. -/
theorem run_activate_ok (svc : Service) (ssid password dev : String)
    (devices reads : List String)
    (hsess : svc.sessionOpens = true) (hdev : svc.getDevices = Except.ok devices)
    (hscan : scanDevices svc devices = (reads, Except.ok (some dev)))
    (hact : svc.activate ⟨connection_settings ssid password, dev, "/"⟩ = Except.ok ()) :
    send_wifi_to_network_manager svc ssid password =
      RunResult.returned
        ⟨reads, [⟨connection_settings ssid password, dev, "/"⟩],
         ["Wi-Fi configuration successfully sent."], []⟩ () := by
  simp [send_wifi_to_network_manager, hsess, hdev, hscan, hact]

/-- When the scan finds a device and the activation call fails, the run issues
exactly that one activation request and prints the failure line carrying the
service's error detail. -/
theorem run_activate_error (svc : Service) (ssid password dev e : String)
    (devices reads : List String)
    (hsess : svc.sessionOpens = true) (hdev : svc.getDevices = Except.ok devices)
    (hscan : scanDevices svc devices = (reads, Except.ok (some dev)))
    (hact : svc.activate ⟨connection_settings ssid password, dev, "/"⟩ = Except.error e) :
    send_wifi_to_network_manager svc ssid password =
      RunResult.returned
        ⟨reads, [⟨connection_settings ssid password, dev, "/"⟩],
         [], ["Failed to configure Wi-Fi: " ++ e]⟩ () := by
  simp [send_wifi_to_network_manager, hsess, hdev, hscan, hact]

/-! ## Claims -/

/-- **C1.** For every SSID string `s` and password string `p` (non-empty,
without embedded null bytes in `p`), the connection profile constructed before
the activation call contains exactly the key `802-11-wireless` mapping to a
group with `ssid` equal to the byte sequence of `s` and `mode` equal to the
string `"infrastructure"`, and the key `802-11-wireless-security` mapping to a
group with `key-mgmt` equal to `"wpa-psk"` and `psk` equal to `p`. -/
theorem C1_payload_shape (s p : String) (hs : s ≠ "") (hp : p ≠ "")
    (hnull : (0 : Nat) ∉ strBytes p) :
    (connection_settings s p).map Prod.fst =
      ["802-11-wireless", "802-11-wireless-security"] ∧
    (∃ wifi, (connection_settings s p).lookup "802-11-wireless" = some wifi ∧
      wifi.map Prod.fst = ["ssid", "mode"] ∧
      wifi.lookup "ssid" = some (DBusValue.bytes (strBytes s)) ∧
      wifi.lookup "mode" = some (DBusValue.str "infrastructure")) ∧
    (∃ sec, (connection_settings s p).lookup "802-11-wireless-security" = some sec ∧
      sec.map Prod.fst = ["key-mgmt", "psk"] ∧
      sec.lookup "key-mgmt" = some (DBusValue.str "wpa-psk") ∧
      sec.lookup "psk" = some (DBusValue.str p)) := by
  refine ⟨rfl, ⟨wifi_settings s, ?_, rfl, ?_, ?_⟩, ⟨wifi_security p, ?_, rfl, ?_, ?_⟩⟩ <;>
    simp [connection_settings, wifi_settings, wifi_security, List.lookup]

/-- Witness for C1 at `s = "ab"`, `p = "pw"`
(`strBytes "ab" = [97, 98]`). -/
theorem C1_payload_shape_witness :
    (("ab" : String) ≠ "" ∧ ("pw" : String) ≠ "" ∧ (0 : Nat) ∉ strBytes "pw") ∧
    ((connection_settings "ab" "pw").map Prod.fst =
      ["802-11-wireless", "802-11-wireless-security"] ∧
    (∃ wifi, (connection_settings "ab" "pw").lookup "802-11-wireless" = some wifi ∧
      wifi.map Prod.fst = ["ssid", "mode"] ∧
      wifi.lookup "ssid" = some (DBusValue.bytes (strBytes "ab")) ∧
      wifi.lookup "mode" = some (DBusValue.str "infrastructure")) ∧
    (∃ sec, (connection_settings "ab" "pw").lookup "802-11-wireless-security" = some sec ∧
      sec.map Prod.fst = ["key-mgmt", "psk"] ∧
      sec.lookup "key-mgmt" = some (DBusValue.str "wpa-psk") ∧
      sec.lookup "psk" = some (DBusValue.str "pw"))) :=
  ⟨⟨by decide, by decide, by decide⟩,
   C1_payload_shape "ab" "pw" (by decide) (by decide) (by decide)⟩

/-- **C2.** When the entry at index `N` of the device list is the first whose
`DeviceType` property equals 2, the run selects exactly that entry as the
Wi-Fi device (the single activation request names it) and issues no
`DeviceType` property reads for any entry after index `N` (the reads are
exactly the first `N + 1` entries). -/
theorem C2_first_match_selection (svc : Service) (ssid password : String)
    (devices : List String) (N : Nat) (hN : N < devices.length)
    (hsess : svc.sessionOpens = true)
    (hdev : svc.getDevices = Except.ok devices)
    (hbefore : ∀ i (hi : i < N), ∃ t,
      svc.deviceType (devices.get ⟨i, Nat.lt_trans hi hN⟩) = Except.ok t ∧ t ≠ 2)
    (hmatch : svc.deviceType (devices.get ⟨N, hN⟩) = Except.ok 2) :
    (send_wifi_to_network_manager svc ssid password).log.propertyReads =
      devices.take (N + 1) ∧
    ∃ req, (send_wifi_to_network_manager svc ssid password).log.activationCalls = [req] ∧
      req.devicePath = devices.get ⟨N, hN⟩ := by
  have hscan := scanDevices_first_match svc devices N hN hbefore hmatch
  cases hact : svc.activate ⟨connection_settings ssid password, devices.get ⟨N, hN⟩, "/"⟩ with
  | ok u =>
    cases u
    rw [run_activate_ok svc ssid password _ devices _ hsess hdev hscan hact]
    exact ⟨rfl, ⟨_, rfl, rfl⟩⟩
  | error e =>
    rw [run_activate_error svc ssid password _ e devices _ hsess hdev hscan hact]
    exact ⟨rfl, ⟨_, rfl, rfl⟩⟩

/-- Witness for C2 on `svcThreeDevices` (`devA` type 1, `devB` and `devC`
type 2): `devB` is selected and `devC` is never queried. -/
theorem C2_first_match_selection_witness :
    (svcThreeDevices.sessionOpens = true ∧
     svcThreeDevices.getDevices = Except.ok ["devA", "devB", "devC"] ∧
     svcThreeDevices.deviceType "devB" = Except.ok 2) ∧
    ((send_wifi_to_network_manager svcThreeDevices "net" "pw").log.propertyReads =
       ["devA", "devB"] ∧
     ∃ req, (send_wifi_to_network_manager svcThreeDevices "net" "pw").log.activationCalls =
       [req] ∧ req.devicePath = "devB") :=
  ⟨⟨rfl, rfl, rfl⟩,
   C2_first_match_selection svcThreeDevices "net" "pw" ["devA", "devB", "devC"] 1
     (by decide) rfl rfl
     (by intro i hi; interval_cases i; exact ⟨1, rfl, by decide⟩) rfl⟩

/-- **C3.** For every device list with no entry of `DeviceType` 2 — including
the empty list, for which no property read is issued at all — the run prints
`"Wi-Fi device not found."` to stderr and returns, and the
`AddAndActivateConnection` call is never issued. -/
theorem C3_no_wifi_device (svc : Service) (ssid password : String)
    (devices : List String)
    (hsess : svc.sessionOpens = true)
    (hdev : svc.getDevices = Except.ok devices)
    (hnone : ∀ d ∈ devices, ∃ t, svc.deviceType d = Except.ok t ∧ t ≠ 2) :
    send_wifi_to_network_manager svc ssid password =
      RunResult.returned ⟨devices, [], [], ["Wi-Fi device not found."]⟩ () :=
  run_not_found svc ssid password devices devices hsess hdev
    (scanDevices_no_match svc devices hnone)

/-- Witness for C3 on `svcNoWifi` (types 1 and 5) and on `svcEmpty` (empty
device list: no property read at all). -/
theorem C3_no_wifi_device_witness :
    (svcNoWifi.getDevices = Except.ok ["devA", "devB"] ∧
     svcNoWifi.deviceType "devA" = Except.ok 1 ∧
     svcNoWifi.deviceType "devB" = Except.ok 5) ∧
    send_wifi_to_network_manager svcNoWifi "net" "pw" =
      RunResult.returned ⟨["devA", "devB"], [], [], ["Wi-Fi device not found."]⟩ () ∧
    send_wifi_to_network_manager svcEmpty "net" "pw" =
      RunResult.returned ⟨[], [], [], ["Wi-Fi device not found."]⟩ () :=
  ⟨⟨rfl, rfl, rfl⟩,
   C3_no_wifi_device svcNoWifi "net" "pw" ["devA", "devB"] rfl rfl
     (by
       intro d hd
       simp only [List.mem_cons, List.not_mem_nil, or_false] at hd
       rcases hd with rfl | rfl
       · exact ⟨1, rfl, by decide⟩
       · exact ⟨5, rfl, by decide⟩),
   C3_no_wifi_device svcEmpty "net" "pw" [] rfl rfl
     (by intro d hd; exact absurd hd (List.not_mem_nil d))⟩

/-- **C4.** When a Wi-Fi device was found and `AddAndActivateConnection`
returns an error, the run returns normally (no process abort) having issued
that one activation call exactly once (no retry), and prints a diagnostic
carrying the service's error detail to stderr. -/
theorem C4_activation_failure (svc : Service) (ssid password detail : String)
    (devices : List String) (N : Nat) (hN : N < devices.length)
    (hsess : svc.sessionOpens = true)
    (hdev : svc.getDevices = Except.ok devices)
    (hbefore : ∀ i (hi : i < N), ∃ t,
      svc.deviceType (devices.get ⟨i, Nat.lt_trans hi hN⟩) = Except.ok t ∧ t ≠ 2)
    (hmatch : svc.deviceType (devices.get ⟨N, hN⟩) = Except.ok 2)
    (hact : svc.activate
      ⟨connection_settings ssid password, devices.get ⟨N, hN⟩, "/"⟩ = Except.error detail) :
    send_wifi_to_network_manager svc ssid password =
      RunResult.returned
        ⟨devices.take (N + 1),
         [⟨connection_settings ssid password, devices.get ⟨N, hN⟩, "/"⟩],
         [], ["Failed to configure Wi-Fi: " ++ detail]⟩ () :=
  run_activate_error svc ssid password _ detail devices _ hsess hdev
    (scanDevices_first_match svc devices N hN hbefore hmatch) hact

/-- Witness for C4 on `svcActivateFail`: one Wi-Fi device, activation
rejected with detail `"supplicant failure"`. -/
theorem C4_activation_failure_witness :
    (svcActivateFail.deviceType "wlan0" = Except.ok 2 ∧
     svcActivateFail.activate
       ⟨connection_settings "net" "pw", "wlan0", "/"⟩ = Except.error "supplicant failure") ∧
    send_wifi_to_network_manager svcActivateFail "net" "pw" =
      RunResult.returned
        ⟨["wlan0"], [⟨connection_settings "net" "pw", "wlan0", "/"⟩],
         [], ["Failed to configure Wi-Fi: supplicant failure"]⟩ () :=
  ⟨⟨rfl, rfl⟩,
   C4_activation_failure svcActivateFail "net" "pw" "supplicant failure" ["wlan0"] 0
     (by decide) rfl rfl (fun i hi => absurd hi (Nat.not_lt_zero i)) rfl rfl⟩

/-- **C6.** A invocation with an argument count other than 2 (excluding the
program name) prints the usage line to stderr and exits with code 1; an
invocation with exactly 2 arguments whose provisioning run returns (whether it
succeeded, found no device, or was rejected by the service) exits with
code 0. -/
theorem C6_exit_codes (svc : Service) :
    (∀ args : List String, args.length ≠ 3 →
      main svc args =
        MainResult.exited 1 [] ["Usage: wifi-config <SSID> <PASSWORD>"]) ∧
    (∀ prog ssid password log u,
      send_wifi_to_network_manager svc ssid password = RunResult.returned log u →
      main svc [prog, ssid, password] =
        MainResult.exited 0 log.stdoutLines log.stderrLines) := by
  constructor
  · intro args h
    rcases args with _ | ⟨a, _ | ⟨b, _ | ⟨c, _ | ⟨d, rest⟩⟩⟩⟩
    · rfl
    · rfl
    · rfl
    · exact absurd rfl h
    · rfl
  · intro prog ssid password log u h
    simp [main, h]

/-- Witness for C6: the empty argument list exits 1 with the usage line, and
a 2-argument invocation against `svcThreeDevices` exits 0 with the run's
console output. -/
theorem C6_exit_codes_witness :
    (([] : List String).length ≠ 3 ∧
     main svcThreeDevices [] =
       MainResult.exited 1 [] ["Usage: wifi-config <SSID> <PASSWORD>"]) ∧
    (∃ log, send_wifi_to_network_manager svcThreeDevices "net" "pw" =
        RunResult.returned log () ∧
      main svcThreeDevices ["prog", "net", "pw"] =
        MainResult.exited 0 log.stdoutLines log.stderrLines) :=
  ⟨⟨by decide, (C6_exit_codes svcThreeDevices).1 [] (by decide)⟩,
   ⟨_, rfl, (C6_exit_codes svcThreeDevices).2 "prog" "net" "pw" _ () rfl⟩⟩

/-- **C7.** A failed session open, a failed `GetDevices` call, or a failed
per-device `DeviceType` read each abort the run immediately (no activation
call is ever issued past the failure), and the abort surfaces at the CLI as
abnormal process termination with a non-zero status (a Rust panic exits with
status 101) — never as a normal return to the caller. -/
theorem C7_fatal_failures (svc : Service) (ssid password prog e : String) :
    (svc.sessionOpens = false →
      send_wifi_to_network_manager svc ssid password =
        RunResult.aborted ⟨[], [], [], []⟩) ∧
    (svc.sessionOpens = true → svc.getDevices = Except.error e →
      send_wifi_to_network_manager svc ssid password =
        RunResult.aborted ⟨[], [], [], []⟩) ∧
    (∀ (devices : List String) (k : Nat) (hk : k < devices.length),
      svc.sessionOpens = true → svc.getDevices = Except.ok devices →
      (∀ i (hi : i < k), ∃ t,
        svc.deviceType (devices.get ⟨i, Nat.lt_trans hi hk⟩) = Except.ok t ∧ t ≠ 2) →
      svc.deviceType (devices.get ⟨k, hk⟩) = Except.error e →
      send_wifi_to_network_manager svc ssid password =
        RunResult.aborted ⟨devices.take (k + 1), [], [], []⟩) ∧
    (∀ log, send_wifi_to_network_manager svc ssid password = RunResult.aborted log →
      main svc [prog, ssid, password] = MainResult.abortedRun log ∧
      (MainResult.abortedRun log).exitCode ≠ 0) := by
  refine ⟨?_, ?_, ?_, ?_⟩
  · intro hsess
    exact run_session_fail svc ssid password hsess
  · intro hsess hdev
    exact run_getDevices_fail svc ssid password e hsess hdev
  · intro devices k hk hsess hdev hbefore herr
    exact run_scan_error svc ssid password e devices _ hsess hdev
      (scanDevices_read_error svc devices k hk e hbefore herr)
  · intro log h
    refine ⟨?_, by simp [MainResult.exitCode]⟩
    simp [main, h]

/-- Witness for C7 on `svcReadFail`: the `DeviceType` read of `devB` fails,
the run aborts after reading `devA` and `devB` with no activation call, and
the process terminates abnormally with status 101. -/
theorem C7_fatal_failures_witness :
    (svcReadFail.deviceType "devB" = Except.error "property read timeout" ∧
     svcReadFail.getDevices = Except.ok ["devA", "devB"]) ∧
    send_wifi_to_network_manager svcReadFail "net" "pw" =
      RunResult.aborted ⟨["devA", "devB"], [], [], []⟩ ∧
    main svcReadFail ["prog", "net", "pw"] =
      MainResult.abortedRun ⟨["devA", "devB"], [], [], []⟩ ∧
    (MainResult.abortedRun ⟨["devA", "devB"], [], [], []⟩).exitCode ≠ 0 := by
  have h := C7_fatal_failures svcReadFail "net" "pw" "prog" "property read timeout"
  have habort := h.2.2.1 ["devA", "devB"] 1 (by decide) rfl rfl
    (by intro i hi; interval_cases i; exact ⟨1, rfl, by decide⟩) rfl
  have hmain := h.2.2.2 ⟨["devA", "devB"], [], [], []⟩ habort
  exact ⟨⟨rfl, rfl⟩, habort, hmain.1, hmain.2⟩

/-- **C5 counterexample.** The claim says the procedure returns a typed
outcome value the caller can branch on.  In the source the return type of
`send_wifi_to_network_manager` is the unit type: two runs with different
outcomes — a genuine success against `svcThreeDevices` and a no-device run
against `svcNoWifi` — hand the caller the very same value, so the caller
cannot branch on which outcome occurred. -/
theorem C5_counterexample :
    (send_wifi_to_network_manager svcThreeDevices "net" "pw").retValue =
      (send_wifi_to_network_manager svcNoWifi "net" "pw").retValue ∧
    (send_wifi_to_network_manager svcThreeDevices "net" "pw").log.stdoutLines =
      ["Wi-Fi configuration successfully sent."] ∧
    (send_wifi_to_network_manager svcNoWifi "net" "pw").log.stderrLines =
      ["Wi-Fi device not found."] :=
  ⟨rfl, rfl, rfl⟩

/-- **C5 (amended).** Every non-aborting run of the provisioning procedure
falls into one of the three outcome classes — Succeeded, NoWifiDeviceFound,
or RemoteCallFailed carrying the service's detail — but the outcome is
signalled only on the console streams; the value returned to the caller is
always the unit value, so the caller cannot branch on it. -/
theorem C5_outcome_classes (svc : Service) (ssid password : String)
    (log : RunLog) (u : Unit)
    (h : send_wifi_to_network_manager svc ssid password = RunResult.returned log u) :
    u = () ∧
    ((log.stdoutLines = ["Wi-Fi configuration successfully sent."] ∧
        log.stderrLines = []) ∨
     (log.stderrLines = ["Wi-Fi device not found."] ∧ log.activationCalls = []) ∨
     (∃ detail, log.stderrLines = ["Failed to configure Wi-Fi: " ++ detail] ∧
        log.stdoutLines = [])) := by
  refine ⟨rfl, ?_⟩
  cases hsess : svc.sessionOpens with
  | false =>
    rw [run_session_fail svc ssid password hsess] at h
    exact absurd h (by simp)
  | true =>
    cases hdev : svc.getDevices with
    | error e =>
      rw [run_getDevices_fail svc ssid password e hsess hdev] at h
      exact absurd h (by simp)
    | ok devices =>
      cases hscan : scanDevices svc devices with
      | mk reads res =>
        cases res with
        | error e =>
          rw [run_scan_error svc ssid password e devices reads hsess hdev hscan] at h
          exact absurd h (by simp)
        | ok od =>
          cases od with
          | none =>
            rw [run_not_found svc ssid password devices reads hsess hdev hscan] at h
            cases h
            exact Or.inr (Or.inl ⟨rfl, rfl⟩)
          | some dev =>
            cases hact : svc.activate ⟨connection_settings ssid password, dev, "/"⟩ with
            | ok u2 =>
              cases u2
              rw [run_activate_ok svc ssid password dev devices reads
                hsess hdev hscan hact] at h
              cases h
              exact Or.inl ⟨rfl, rfl⟩
            | error e =>
              rw [run_activate_error svc ssid password dev e devices reads
                hsess hdev hscan hact] at h
              cases h
              exact Or.inr (Or.inr ⟨e, rfl, rfl⟩)

/-- Witness for the amended C5 on `svcThreeDevices`: the run returns, its
returned value is the unit value, and it lies in the Succeeded class. -/
theorem C5_outcome_classes_witness :
    (∃ log, send_wifi_to_network_manager svcThreeDevices "net" "pw" =
        RunResult.returned log () ∧
      (() = () ∧
       ((log.stdoutLines = ["Wi-Fi configuration successfully sent."] ∧
           log.stderrLines = []) ∨
        (log.stderrLines = ["Wi-Fi device not found."] ∧ log.activationCalls = []) ∨
        (∃ detail, log.stderrLines = ["Failed to configure Wi-Fi: " ++ detail] ∧
           log.stdoutLines = [])))) :=
  ⟨_, rfl, C5_outcome_classes svcThreeDevices "net" "pw" _ () rfl⟩

/-- **C8.** Every run that reaches the activation step issues
`AddAndActivateConnection` exactly once, with exactly the argument triple of
the constructed profile, the matched device handle, and the fixed literal
root path `"/"`. -/
theorem C8_activation_triple (svc : Service) (ssid password : String)
    (devices : List String) (N : Nat) (hN : N < devices.length)
    (hsess : svc.sessionOpens = true)
    (hdev : svc.getDevices = Except.ok devices)
    (hbefore : ∀ i (hi : i < N), ∃ t,
      svc.deviceType (devices.get ⟨i, Nat.lt_trans hi hN⟩) = Except.ok t ∧ t ≠ 2)
    (hmatch : svc.deviceType (devices.get ⟨N, hN⟩) = Except.ok 2) :
    (send_wifi_to_network_manager svc ssid password).log.activationCalls =
      [⟨connection_settings ssid password, devices.get ⟨N, hN⟩, "/"⟩] := by
  have hscan := scanDevices_first_match svc devices N hN hbefore hmatch
  cases hact : svc.activate ⟨connection_settings ssid password, devices.get ⟨N, hN⟩, "/"⟩ with
  | ok u =>
    cases u
    rw [run_activate_ok svc ssid password _ devices _ hsess hdev hscan hact]
    rfl
  | error e =>
    rw [run_activate_error svc ssid password _ e devices _ hsess hdev hscan hact]
    rfl

/-- Witness for C8 on `svcThreeDevices`: the one activation request carries
the constructed profile, `devB`, and the sentinel path `"/"`. -/
theorem C8_activation_triple_witness :
    (svcThreeDevices.deviceType "devB" = Except.ok 2) ∧
    (send_wifi_to_network_manager svcThreeDevices "net" "pw").log.activationCalls =
      [⟨connection_settings "net" "pw", "devB", "/"⟩] :=
  ⟨rfl,
   C8_activation_triple svcThreeDevices "net" "pw" ["devA", "devB", "devC"] 1
     (by decide) rfl rfl
     (by intro i hi; interval_cases i; exact ⟨1, rfl, by decide⟩) rfl⟩

/-- **C9.** Two runs with identical SSID and password inputs against services
giving identical responses produce identical traces — in particular identical
requests and identical profile payloads: the run (and so the profile-building
step inside it) is a pure function of the two inputs and the service's
responses, with no hidden mutable state or randomness. -/
theorem C9_deterministic_requests (svc1 svc2 : Service) (ssid password : String)
    (hs : svc1.sessionOpens = svc2.sessionOpens)
    (hg : svc1.getDevices = svc2.getDevices)
    (hd : ∀ d, svc1.deviceType d = svc2.deviceType d)
    (ha : ∀ r, svc1.activate r = svc2.activate r) :
    send_wifi_to_network_manager svc1 ssid password =
      send_wifi_to_network_manager svc2 ssid password := by
  have hscan := scanDevices_congr svc1 svc2 hd
  simp only [send_wifi_to_network_manager, hs, hg, hscan, ha]

/-- Witness for C9: `svcThreeDevices` and its separately defined twin answer
every request identically, and the two runs coincide. -/
theorem C9_deterministic_requests_witness :
    (svcThreeDevices.sessionOpens = svcThreeDevicesTwin.sessionOpens ∧
     svcThreeDevices.getDevices = svcThreeDevicesTwin.getDevices) ∧
    send_wifi_to_network_manager svcThreeDevices "net" "pw" =
      send_wifi_to_network_manager svcThreeDevicesTwin "net" "pw" :=
  ⟨⟨rfl, rfl⟩,
   C9_deterministic_requests svcThreeDevices svcThreeDevicesTwin "net" "pw"
     rfl rfl (fun _ => rfl) (fun _ => rfl)⟩

/-- **C10.** The procedure validates neither input: with an empty SSID and an
empty password a run that finds a Wi-Fi device proceeds exactly as for any
other inputs and still issues the activation call, whose profile has an
`ssid` entry equal to the empty byte sequence and a `psk` entry equal to the
empty string. -/
theorem C10_no_input_validation (svc : Service)
    (devices : List String) (N : Nat) (hN : N < devices.length)
    (hsess : svc.sessionOpens = true)
    (hdev : svc.getDevices = Except.ok devices)
    (hbefore : ∀ i (hi : i < N), ∃ t,
      svc.deviceType (devices.get ⟨i, Nat.lt_trans hi hN⟩) = Except.ok t ∧ t ≠ 2)
    (hmatch : svc.deviceType (devices.get ⟨N, hN⟩) = Except.ok 2) :
    (∃ log, send_wifi_to_network_manager svc "" "" = RunResult.returned log () ∧
      log.propertyReads = devices.take (N + 1) ∧
      log.activationCalls =
        [⟨connection_settings "" "", devices.get ⟨N, hN⟩, "/"⟩]) ∧
    (connection_settings "" "").lookup "802-11-wireless" = some (wifi_settings "") ∧
    (wifi_settings "").lookup "ssid" = some (DBusValue.bytes []) ∧
    (connection_settings "" "").lookup "802-11-wireless-security" =
      some (wifi_security "") ∧
    (wifi_security "").lookup "psk" = some (DBusValue.str "") := by
  have hscan := scanDevices_first_match svc devices N hN hbefore hmatch
  refine ⟨?_, rfl, rfl, rfl, rfl⟩
  cases hact : svc.activate ⟨connection_settings "" "", devices.get ⟨N, hN⟩, "/"⟩ with
  | ok u =>
    cases u
    exact ⟨_, run_activate_ok svc "" "" _ devices _ hsess hdev hscan hact, rfl, rfl⟩
  | error e =>
    exact ⟨_, run_activate_error svc "" "" _ e devices _ hsess hdev hscan hact, rfl, rfl⟩

/-- Witness for C10 on `svcThreeDevices` with both inputs empty. -/
theorem C10_no_input_validation_witness :
    (svcThreeDevices.deviceType "devB" = Except.ok 2) ∧
    ((∃ log, send_wifi_to_network_manager svcThreeDevices "" "" =
        RunResult.returned log () ∧
      log.propertyReads = ["devA", "devB"] ∧
      log.activationCalls = [⟨connection_settings "" "", "devB", "/"⟩]) ∧
    (connection_settings "" "").lookup "802-11-wireless" = some (wifi_settings "") ∧
    (wifi_settings "").lookup "ssid" = some (DBusValue.bytes []) ∧
    (connection_settings "" "").lookup "802-11-wireless-security" =
      some (wifi_security "") ∧
    (wifi_security "").lookup "psk" = some (DBusValue.str "")) :=
  ⟨rfl,
   C10_no_input_validation svcThreeDevices ["devA", "devB", "devC"] 1
     (by decide) rfl rfl
     (by intro i hi; interval_cases i; exact ⟨1, rfl, by decide⟩) rfl⟩

end WifiConfig
